import Mathlib

/-!
# weather-mcp: a shallow embedding of `main.go`

The program registers two tools, `get_weather` and `get_forecast`.  Each handler
validates its arguments, calls `fetchWeather` / `fetchForecast`, and wraps the
outcome in a tool result.  The fetch routines read the credential, build a URL,
perform one HTTP GET, check the status, decode JSON and format a text report.

Everything outside the source file is a parameter of the model, gathered in
`World`: the network (URL to outcome of the exchange), the JSON decoder, the
rendering of floating point numbers and the result of a float to int conversion
that does not fit.  Every fetch returns the list of URLs it requested together
with its result, so that "no request is made" is a statement about that list.
-/

namespace WeatherMcp

set_option maxRecDepth 100000

/-! ## Numbers -/

/-- A finite float64 value, `mant * 2 ^ exp`.  JSON numbers decode to finite values only. -/
structure Float64 where
  mant : Int
  exp : Int
deriving DecidableEq, Repr

/-- The comparison `h > 0`. -/
def Float64.isPos (h : Float64) : Bool := decide (0 < h.mant)

/-- The value rounded toward zero, as an unbounded integer. -/
def Float64.trunc (h : Float64) : Int :=
  if 0 ≤ h.exp then h.mant * 2 ^ h.exp.toNat else Int.tdiv h.mant (2 ^ (-h.exp).toNat)

def minInt : Int := -9223372036854775808

def maxInt : Int := 9223372036854775807

/-- The conversion `int(h)` of Go on a 64 bit platform: truncation toward zero when the
truncated value is representable; otherwise the language leaves the result to the
implementation, and `indef` is that result. -/
def floatToInt (indef : Int) (h : Float64) : Int :=
  if minInt ≤ h.trunc ∧ h.trunc ≤ maxInt then h.trunc else indef

/-- The result the amd64 conversion instruction gives when the value does not fit. -/
def amd64Indefinite : Int := minInt

/-- Floating point operations whose digits the development does not look into:
the verbs `%.0f` and `%.1f`, and the product `x * 100`. -/
structure FloatOps where
  f0 : Float64 → String
  f1 : Float64 → String
  mul100 : Float64 → Float64

/-! ## Formatting -/

/-- An operand of `fmt.Sprintf`. An `error` operand is given by its message. -/
inductive FmtArg where
  | str (s : String)
  | int (n : Int)
  | float (x : Float64)

/-- A piece of a format string: literal text or one of the verbs used in `main.go`. -/
inductive Directive where
  | lit (s : String)
  | text
  | decimal
  | fixed0
  | fixed1
deriving DecidableEq, Repr

/-- Puts a literal character in front of the directives that follow it. -/
def pushChar (c : Char) : List Directive → List Directive
  | .lit s :: ds => .lit (String.singleton c ++ s) :: ds
  | ds => .lit (String.singleton c) :: ds

/-- Reads a format string: `%%` is a literal percent sign, `%s`, `%v` and `%w` print
text, `%d` an integer, `%.0f` and `%.1f` a float.  Any other character is literal. -/
def directives : List Char → List Directive
  | [] => []
  | '%' :: '%' :: rest => pushChar '%' (directives rest)
  | '%' :: 's' :: rest => .text :: directives rest
  | '%' :: 'v' :: rest => .text :: directives rest
  | '%' :: 'w' :: rest => .text :: directives rest
  | '%' :: 'd' :: rest => .decimal :: directives rest
  | '%' :: '.' :: '0' :: 'f' :: rest => .fixed0 :: directives rest
  | '%' :: '.' :: '1' :: 'f' :: rest => .fixed1 :: directives rest
  | c :: rest => pushChar c (directives rest)

/-- Prints the directives, taking one operand per verb.  A verb without an operand of
its kind prints a marker; no format of `main.go` reaches that case. -/
def render (ops : FloatOps) : List Directive → List FmtArg → String
  | [], _ => ""
  | .lit s :: ds, args => s ++ render ops ds args
  | .text :: ds, .str s :: args => s ++ render ops ds args
  | .decimal :: ds, .int n :: args => toString n ++ render ops ds args
  | .fixed0 :: ds, .float x :: args => ops.f0 x ++ render ops ds args
  | .fixed1 :: ds, .float x :: args => ops.f1 x ++ render ops ds args
  | _ :: ds, args => "%!(BADVERB)" ++ render ops ds args

def Sprintf (ops : FloatOps) (format : String) (args : List FmtArg) : String :=
  render ops (directives format.data) args

/-! ## Data model (lines 16-63) -/

def defaultAPIKey : String := ""

def baseURL : String := "https://api.openweathermap.org/data/2.5"

/-- An element of a `weather` list. -/
structure Condition where
  Main : String
  Description : String

structure WeatherData where
  Name : String
  Temp : Float64
  FeelsLike : Float64
  Humidity : Int
  TempMin : Float64
  TempMax : Float64
  Weather : List Condition
  WindSpeed : Float64
  WindGust : Float64
  CloudsAll : Int

/-- An element of `ForecastData.List`. -/
structure ForecastEntry where
  DtTxt : String
  Temp : Float64
  FeelsLike : Float64
  Humidity : Int
  Weather : List Condition
  WindSpeed : Float64
  Pop : Float64

structure ForecastData where
  List : List ForecastEntry
  CityName : String

/-! ## Environment, network and results -/

/-- The process environment: variable name to value, `none` when unset. -/
abbrev Env := String → Option String

/-- The function `os.Getenv`: the empty string when the variable is unset. -/
def Getenv (env : Env) (key : String) : String := (env key).getD ""

/-- What one `http.Get` followed by `io.ReadAll` can come to. -/
inductive HttpOutcome where
  | transportError (msg : String)
  | readError (status : Int) (msg : String)
  | response (status : Int) (body : String)

structure World where
  net : String → HttpOutcome
  decodeWeather : String → Except String WeatherData
  decodeForecast : String → Except String ForecastData
  ops : FloatOps
  indef : Int

/-- The outcome of a fetch routine: `ok text` for `(text, nil)`, `error msg` for
`("", err)`, and `runtimePanic` when an index is out of range. -/
inductive FetchResult where
  | ok (text : String)
  | error (msg : String)
  | runtimePanic
deriving DecidableEq, Repr

/-- A fetch routine run to its end: the URLs requested and the outcome. -/
structure Run where
  requests : List String
  result : FetchResult
deriving DecidableEq, Repr

/-! ## The fetch routines (lines 65-172) -/

def getAPIKey (env : Env) : String :=
  let key := Getenv env "WEATHER_API_KEY"
  if key = "" then defaultAPIKey else key

/-- Lines 100-119: the report of a decoded response. -/
def weatherReport (ops : FloatOps) (data : WeatherData) : String :=
  let cd : String × String :=
    match data.Weather with
    | [] => ("Clear", "clear sky")
    | c :: _ => (c.Main, c.Description)
  Sprintf ops
    "Weather for %s:\n  Condition: %s (%s)\n  Temperature: %.0f°F (feels like %.0f°F)\n  High: %.0f°F / Low: %.0f°F\n  Humidity: %d%%\n  Wind: %.1f mph (gusts: %.1f mph)\n  Cloud cover: %d%%"
    [.str data.Name, .str cd.1, .str cd.2,
     .float data.Temp, .float data.FeelsLike,
     .float data.TempMax, .float data.TempMin,
     .int data.Humidity,
     .float data.WindSpeed, .float data.WindGust,
     .int data.CloudsAll]

def fetchWeather (w : World) (env : Env) (city : String) : Run :=
  let apiKey := getAPIKey env
  if apiKey = "" then
    ⟨[], .error (Sprintf w.ops "WEATHER_API_KEY not set" [])⟩
  else
    let url := Sprintf w.ops "%s/weather?q=%s&appid=%s&units=imperial"
      [.str baseURL, .str city, .str apiKey]
    match w.net url with
    | .transportError e =>
        ⟨[url], .error (Sprintf w.ops "failed to fetch weather: %w" [.str e])⟩
    | .readError _ e =>
        ⟨[url], .error (Sprintf w.ops "failed to read response: %w" [.str e])⟩
    | .response status body =>
        if status ≠ 200 then
          ⟨[url], .error (Sprintf w.ops "API error (%d): %s" [.int status, .str body])⟩
        else
          match w.decodeWeather body with
          | .error e => ⟨[url], .error (Sprintf w.ops "failed to parse weather: %w" [.str e])⟩
          | .ok data => ⟨[url], .ok (weatherReport w.ops data)⟩

/-- Lines 152-158: the value of `entries` when the loop starts. -/
def entryCount (hours : Int) (len : Nat) : Int :=
  let entries := Int.tdiv hours 3
  let entries := if entries > (len : Int) then (len : Int) else entries
  if entries < 1 then 1 else entries

/-- Lines 162-168: the text one iteration appends. -/
def entryText (ops : FloatOps) (entry : ForecastEntry) : String :=
  let condition :=
    match entry.Weather with
    | [] => "Clear"
    | c :: _ => c.Description
  Sprintf ops "  %s: %.0f°F, %s, wind %.1f mph, rain chance %.0f%%\n"
    [.str entry.DtTxt, .float entry.Temp, .str condition, .float entry.WindSpeed,
     .float (ops.mul100 entry.Pop)]

/-- Lines 161-169: `for i := 0; i < entries; i++`, started at index `i` with `n`
iterations to go.  An index outside the list is a run-time panic. -/
def forecastLoop (ops : FloatOps) (list : List ForecastEntry) :
    Nat → Nat → String → FetchResult
  | 0, _, result => .ok result
  | n + 1, i, result =>
      match list.get? i with
      | none => .runtimePanic
      | some entry => forecastLoop ops list n (i + 1) (result ++ entryText ops entry)

/-- Lines 151-171: the report of a decoded response. -/
def forecastReport (ops : FloatOps) (data : ForecastData) (hours : Int) : FetchResult :=
  let entries := entryCount hours data.List.length
  let result := Sprintf ops "Forecast for %s (next %d hours):\n"
    [.str data.CityName, .int hours]
  forecastLoop ops data.List entries.toNat 0 result

def fetchForecast (w : World) (env : Env) (city : String) (hours : Int) : Run :=
  let apiKey := getAPIKey env
  if apiKey = "" then
    ⟨[], .error (Sprintf w.ops "WEATHER_API_KEY not set" [])⟩
  else
    let url := Sprintf w.ops "%s/forecast?q=%s&appid=%s&units=imperial"
      [.str baseURL, .str city, .str apiKey]
    match w.net url with
    | .transportError e =>
        ⟨[url], .error (Sprintf w.ops "failed to fetch forecast: %w" [.str e])⟩
    | .readError _ e =>
        ⟨[url], .error (Sprintf w.ops "failed to read response: %w" [.str e])⟩
    | .response status body =>
        if status ≠ 200 then
          ⟨[url], .error (Sprintf w.ops "API error (%d): %s" [.int status, .str body])⟩
        else
          match w.decodeForecast body with
          | .error e =>
              ⟨[url], .error (Sprintf w.ops "failed to parse forecast: %w" [.str e])⟩
          | .ok data => ⟨[url], forecastReport w.ops data hours⟩

/-! ## The tool handlers (lines 174-241) -/

/-- A value of the argument mapping, by dynamic type. -/
inductive Value where
  | str (s : String)
  | number (x : Float64)
  | other
deriving DecidableEq, Repr

abbrev Arguments := List (String × Value)

/-- A tool result: its text content and the `IsError` flag. -/
structure CallToolResult where
  text : String
  isError : Bool
deriving DecidableEq, Repr

def NewToolResultError (msg : String) : CallToolResult := ⟨msg, true⟩

def NewToolResultText (text : String) : CallToolResult := ⟨text, false⟩

/-- What a handler comes to: the pair it returns, or a run-time panic. -/
inductive Reply where
  | returned (res : CallToolResult) (err : Option String)
  | runtimePanic
deriving DecidableEq, Repr

structure HandlerRun where
  requests : List String
  reply : Reply
deriving DecidableEq, Repr

/-- The assertion `req.Params.Arguments["city"].(string)`. -/
def cityArg (args : Arguments) : Option String :=
  match args.lookup "city" with
  | some (.str s) => some s
  | _ => none

/-- Lines 195-200 and 228-233: the tool result made from the outcome of a fetch.  A
fetch error is reported with `format`; the Go error returned is always nil. -/
def toolReply (ops : FloatOps) (format : String) (r : Run) : HandlerRun :=
  match r.result with
  | .runtimePanic => ⟨r.requests, .runtimePanic⟩
  | .error err =>
      ⟨r.requests, .returned (NewToolResultError (Sprintf ops format [.str err])) none⟩
  | .ok result => ⟨r.requests, .returned (NewToolResultText result) none⟩

def getWeatherHandler (w : World) (env : Env) (args : Arguments) : HandlerRun :=
  match cityArg args with
  | none => ⟨[], .returned (NewToolResultError "city is required") none⟩
  | some city =>
    if city = "" then ⟨[], .returned (NewToolResultError "city is required") none⟩
    else toolReply w.ops "Failed to get weather: %v" (fetchWeather w env city)

/-- Lines 220-226: the hour count handed to `fetchForecast`. -/
def forecastHours (indef : Int) (args : Arguments) : Int :=
  match args.lookup "hours" with
  | some (.number h) =>
      if h.isPos then
        let hours := floatToInt indef h
        if hours > 120 then 120 else hours
      else 24
  | _ => 24

def getForecastHandler (w : World) (env : Env) (args : Arguments) : HandlerRun :=
  match cityArg args with
  | none => ⟨[], .returned (NewToolResultError "city is required") none⟩
  | some city =>
    if city = "" then ⟨[], .returned (NewToolResultError "city is required") none⟩
    else
      let hours := forecastHours w.indef args
      toolReply w.ops "Failed to get forecast: %v" (fetchForecast w env city hours)

/-! ## Concrete inputs used to run the model -/

def demoOps : FloatOps where
  f0 := fun x => toString x.trunc
  f1 := fun x => toString x.trunc ++ ".0"
  mul100 := fun x => ⟨x.mant * 100, x.exp⟩

def demoEntry : ForecastEntry where
  DtTxt := "2024-01-01 12:00:00"
  Temp := ⟨70, 0⟩
  FeelsLike := ⟨68, 0⟩
  Humidity := 40
  Weather := [⟨"Clouds", "few clouds"⟩]
  WindSpeed := ⟨5, 0⟩
  Pop := ⟨1, -1⟩

def demoWeather : WeatherData where
  Name := "Austin"
  Temp := ⟨70, 0⟩
  FeelsLike := ⟨68, 0⟩
  Humidity := 40
  TempMin := ⟨60, 0⟩
  TempMax := ⟨75, 0⟩
  Weather := []
  WindSpeed := ⟨5, 0⟩
  WindGust := ⟨9, 0⟩
  CloudsAll := 20

/-- A forecast response with `n` entries. -/
def demoForecast (n : Nat) : ForecastData := ⟨List.replicate n demoEntry, "Austin"⟩

/-- A world whose network answers every request with `status` and whose decoder
yields the given forecast. -/
def demoWorld (status : Int) (data : ForecastData) : World where
  net := fun _ => .response status "city not found"
  decodeWeather := fun _ => .ok demoWeather
  decodeForecast := fun _ => .ok data
  ops := demoOps
  indef := amd64Indefinite

def demoEnv : Env := fun k => if k = "WEATHER_API_KEY" then some "KEY" else none

def emptyEnv : Env := fun _ => none

/-! ## The text the specification describes -/

def weatherURL (city apiKey : String) : String :=
  baseURL ++ "/weather?q=" ++ city ++ "&appid=" ++ apiKey ++ "&units=imperial"

def forecastURL (city apiKey : String) : String :=
  baseURL ++ "/forecast?q=" ++ city ++ "&appid=" ++ apiKey ++ "&units=imperial"

/-- The header line of a forecast, without its line break. -/
def headerLine (name : String) (hours : Int) : String :=
  "Forecast for " ++ name ++ " (next " ++ toString hours ++ " hours):"

/-- The description of the first weather item, `Clear` when there is none. -/
def entryCondition (entry : ForecastEntry) : String :=
  (entry.Weather.head?.map (fun c => c.Description)).getD "Clear"

/-- The line of one forecast entry, without its line break. -/
def entryLine (ops : FloatOps) (entry : ForecastEntry) : String :=
  "  " ++ entry.DtTxt ++ ": " ++ ops.f0 entry.Temp ++ "°F, " ++ entryCondition entry
    ++ ", wind " ++ ops.f1 entry.WindSpeed ++ " mph, rain chance "
    ++ ops.f0 (ops.mul100 entry.Pop) ++ "%"

/-- A header line and entry lines, each closed by a line break. -/
def forecastText (header : String) (lines : List String) : String :=
  header ++ "\n" ++ String.join (lines.map (fun l => l ++ "\n"))

/-- The condition and description of the first weather item, `Clear` and `clear sky`
when there is none. -/
def weatherCondition (data : WeatherData) : String :=
  (data.Weather.head?.map (fun c => c.Main)).getD "Clear"

def weatherDescription (data : WeatherData) : String :=
  (data.Weather.head?.map (fun c => c.Description)).getD "clear sky"

/-- The seven lines of a current conditions report. -/
def weatherLines (ops : FloatOps) (data : WeatherData) : List String :=
  ["Weather for " ++ data.Name ++ ":",
   "  Condition: " ++ weatherCondition data ++ " (" ++ weatherDescription data ++ ")",
   "  Temperature: " ++ ops.f0 data.Temp ++ "°F (feels like " ++ ops.f0 data.FeelsLike
     ++ "°F)",
   "  High: " ++ ops.f0 data.TempMax ++ "°F / Low: " ++ ops.f0 data.TempMin ++ "°F",
   "  Humidity: " ++ toString data.Humidity ++ "%",
   "  Wind: " ++ ops.f1 data.WindSpeed ++ " mph (gusts: " ++ ops.f1 data.WindGust ++ " mph)",
   "  Cloud cover: " ++ toString data.CloudsAll ++ "%"]

/-- The pieces of a text between the occurrences of `sep`. -/
def splitOnChar (sep : Char) : List Char → List (List Char)
  | [] => [[]]
  | c :: cs =>
      if c = sep then [] :: splitOnChar sep cs
      else
        match splitOnChar sep cs with
        | [] => [[c]]
        | p :: ps => (c :: p) :: ps

/-- The URL without its fragment: the part before the first `#`. -/
def dropFragment : List Char → List Char
  | [] => []
  | c :: cs => if c = '#' then [] else c :: dropFragment cs

/-- The part of a text after its first question mark. -/
def afterQuestion : List Char → List Char
  | [] => []
  | c :: cs => if c = '?' then cs else afterQuestion cs

/-- The query component of a URL: after the first question mark, up to the fragment. -/
def queryOf (url : List Char) : List Char := afterQuestion (dropFragment url)

/-- The query parameters of a URL: the query string split on `&`, each piece split on `=`. -/
def queryParams (url : String) : List (List String) :=
  (splitOnChar '&' (queryOf url.data)).map (fun p => (splitOnChar '=' p).map String.mk)

/-- The three parameters the specification names. -/
def expectedParams (city apiKey : String) : List (List String) :=
  [["q", city], ["appid", apiKey], ["units", "imperial"]]

/-- The hour count the specification describes for a requested value `h`. -/
def clampedHours (h : Float64) : Int := min h.trunc 120

/-! ## Shared lemmas -/

theorem Sprintf_header (ops : FloatOps) (name : String) (hours : Int) :
    Sprintf ops "Forecast for %s (next %d hours):\n" [.str name, .int hours]
      = headerLine name hours ++ "\n" := by
  have hd : directives "Forecast for %s (next %d hours):\n".data
      = [.lit "Forecast for ", .text, .lit " (next ", .decimal, .lit " hours):\n"] := by
    decide
  unfold Sprintf headerLine
  rw [hd]
  simp only [render, String.append_assoc, String.append_empty]
  rfl

theorem Sprintf_entry (ops : FloatOps) (dt cond : String) (t ws p : Float64) :
    Sprintf ops "  %s: %.0f°F, %s, wind %.1f mph, rain chance %.0f%%\n"
        [.str dt, .float t, .str cond, .float ws, .float p]
      = "  " ++ dt ++ ": " ++ ops.f0 t ++ "°F, " ++ cond ++ ", wind " ++ ops.f1 ws
          ++ " mph, rain chance " ++ ops.f0 p ++ "%" ++ "\n" := by
  have hd : directives "  %s: %.0f°F, %s, wind %.1f mph, rain chance %.0f%%\n".data
      = [.lit "  ", .text, .lit ": ", .fixed0, .lit "°F, ", .text, .lit ", wind ", .fixed1,
         .lit " mph, rain chance ", .fixed0, .lit "%\n"] := by
    decide
  unfold Sprintf
  rw [hd]
  simp only [render, String.append_assoc, String.append_empty]
  rfl

theorem entryText_eq (ops : FloatOps) (entry : ForecastEntry) :
    entryText ops entry = entryLine ops entry ++ "\n" := by
  unfold entryText entryLine entryCondition
  rw [Sprintf_entry]
  cases entry.Weather <;> rfl

theorem join_cons (a : String) (l : List String) :
    String.join (a :: l) = a ++ String.join l := by
  apply String.ext
  simp

theorem forecastLoop_ok (ops : FloatOps) (list : List ForecastEntry) :
    ∀ (n i : Nat) (result : String), i + n ≤ list.length →
      forecastLoop ops list n i result
        = .ok (result ++ String.join (((list.drop i).take n).map (entryText ops))) := by
  intro n
  induction n with
  | zero =>
      intro i result _
      simp [forecastLoop, String.join]
  | succ n ih =>
      intro i result h
      have hi : i < list.length := by omega
      have hd : list.drop i = list.get ⟨i, hi⟩ :: list.drop (i + 1) :=
        List.drop_eq_getElem_cons hi
      rw [forecastLoop, List.get?_eq_get hi]
      simp only []
      rw [ih (i + 1) _ (by omega), hd, List.take_succ_cons, List.map_cons, join_cons,
        String.append_assoc]

theorem entryCount_eq (hours : Int) (len : Nat) :
    entryCount hours len = max 1 (min (Int.tdiv hours 3) (len : Int)) := by
  unfold entryCount
  simp only []
  split_ifs <;> omega

theorem entryCount_pos (hours : Int) (len : Nat) : 1 ≤ entryCount hours len := by
  rw [entryCount_eq]; omega

theorem entryCount_le (hours : Int) (len : Nat) (h : 1 ≤ len) :
    entryCount hours len ≤ len := by
  rw [entryCount_eq]; omega

theorem forecastReport_ok (ops : FloatOps) (data : ForecastData) (hours : Int)
    (h : 1 ≤ data.List.length) :
    forecastReport ops data hours
      = .ok (forecastText (headerLine data.CityName hours)
          ((data.List.take (entryCount hours data.List.length).toNat).map (entryLine ops))) := by
  have h1 := entryCount_pos hours data.List.length
  have h2 := entryCount_le hours data.List.length h
  unfold forecastReport
  simp only []
  have hf : entryText ops = fun e => entryLine ops e ++ "\n" := funext (entryText_eq ops)
  rw [forecastLoop_ok ops data.List _ 0 _ (by omega), Sprintf_header, hf]
  simp [forecastText, Function.comp_def, List.map_take]

theorem forecastReport_empty (ops : FloatOps) (name : String) (hours : Int) :
    forecastReport ops ⟨[], name⟩ hours = .runtimePanic := by
  have h1 : entryCount hours 0 = 1 := by
    rw [entryCount_eq]; omega
  simp [forecastReport, h1, forecastLoop]

theorem Sprintf_weatherURL (ops : FloatOps) (city apiKey : String) :
    Sprintf ops "%s/weather?q=%s&appid=%s&units=imperial"
        [.str baseURL, .str city, .str apiKey] = weatherURL city apiKey := by
  have hd : directives "%s/weather?q=%s&appid=%s&units=imperial".data
      = [.text, .lit "/weather?q=", .text, .lit "&appid=", .text, .lit "&units=imperial"] := by
    decide
  unfold Sprintf weatherURL
  rw [hd]
  simp only [render, String.append_assoc, String.append_empty]

theorem Sprintf_forecastURL (ops : FloatOps) (city apiKey : String) :
    Sprintf ops "%s/forecast?q=%s&appid=%s&units=imperial"
        [.str baseURL, .str city, .str apiKey] = forecastURL city apiKey := by
  have hd : directives "%s/forecast?q=%s&appid=%s&units=imperial".data
      = [.text, .lit "/forecast?q=", .text, .lit "&appid=", .text, .lit "&units=imperial"] := by
    decide
  unfold Sprintf forecastURL
  rw [hd]
  simp only [render, String.append_assoc, String.append_empty]

theorem Sprintf_apiError (ops : FloatOps) (status : Int) (body : String) :
    Sprintf ops "API error (%d): %s" [.int status, .str body]
      = "API error (" ++ toString status ++ "): " ++ body := by
  have hd : directives "API error (%d): %s".data
      = [.lit "API error (", .decimal, .lit "): ", .text] := by
    decide
  unfold Sprintf
  rw [hd]
  simp only [render, String.append_assoc, String.append_empty]

theorem Sprintf_noKey (ops : FloatOps) :
    Sprintf ops "WEATHER_API_KEY not set" [] = "WEATHER_API_KEY not set" := by
  have hd : directives "WEATHER_API_KEY not set".data = [.lit "WEATHER_API_KEY not set"] := by
    decide
  unfold Sprintf
  rw [hd]
  simp only [render, String.append_empty]

/-- With a credential, a 200 response and a body that decodes, `fetchForecast`
requests one URL and returns the report of the decoded data. -/
theorem fetchForecast_decoded (w : World) (env : Env) (city body : String) (hours : Int)
    (data : ForecastData) (hk : getAPIKey env ≠ "")
    (hnet : w.net (forecastURL city (getAPIKey env)) = .response 200 body)
    (hdec : w.decodeForecast body = .ok data) :
    fetchForecast w env city hours
      = ⟨[forecastURL city (getAPIKey env)], forecastReport w.ops data hours⟩ := by
  simp [fetchForecast, hk, Sprintf_forecastURL, hnet, hdec]

theorem demoEnv_key : getAPIKey demoEnv = "KEY" := by decide

/-! ## Claims about the forecast entries -/

/-- C1, evaluated on the code: with a credential, a 200 response and a decoded forecast
whose list is empty, `fetchForecast` reads index 0 of the empty list for every hour
count, so the call panics instead of returning a result. -/
theorem fetchForecast_empty_list_panics (hours : Int) :
    fetchForecast (demoWorld 200 (demoForecast 0)) demoEnv "Austin" hours
      = ⟨[forecastURL "Austin" "KEY"], .runtimePanic⟩ := by
  have h := fetchForecast_decoded (demoWorld 200 (demoForecast 0)) demoEnv "Austin"
    "city not found" hours (demoForecast 0) (by decide) rfl rfl
  rw [h, demoEnv_key]
  exact congrArg _ (forecastReport_empty _ _ _)

/-- C2: for an hour count between 1 and 120 and a decoded list of at least one entry,
`fetchForecast` renders exactly `max 1 (min (hours / 3) n)` entries, the first ones of
the list. -/
theorem fetchForecast_entry_count (w : World) (env : Env) (city body : String)
    (hours : Int) (data : ForecastData) (hk : getAPIKey env ≠ "")
    (hnet : w.net (forecastURL city (getAPIKey env)) = .response 200 body)
    (hdec : w.decodeForecast body = .ok data)
    (h1 : 1 ≤ hours) (h2 : hours ≤ 120) (hn : 1 ≤ data.List.length) :
    ∃ lines : List String,
      (fetchForecast w env city hours).result
          = .ok (forecastText (headerLine data.CityName hours) lines)
        ∧ (lines.length : Int) = max 1 (min (hours / 3) (data.List.length : Int))
        ∧ lines = (data.List.take lines.length).map (entryLine w.ops) := by
  have hc := entryCount_eq hours data.List.length
  have hp := entryCount_pos hours data.List.length
  have hl := entryCount_le hours data.List.length hn
  have hdiv : Int.tdiv hours 3 = hours / 3 := Int.tdiv_eq_ediv (by omega) (by omega)
  have hlen : ((data.List.take (entryCount hours data.List.length).toNat).map
      (entryLine w.ops)).length = (entryCount hours data.List.length).toNat := by
    rw [List.length_map, List.length_take]; omega
  refine ⟨(data.List.take (entryCount hours data.List.length).toNat).map (entryLine w.ops),
    ?_, ?_, ?_⟩
  · rw [fetchForecast_decoded w env city body hours data hk hnet hdec]
    exact forecastReport_ok w.ops data hours hn
  · rw [hlen, ← hdiv, ← hc]; omega
  · rw [hlen]

/-- The three examples of C2: a list of 40 with 24 hours gives 8 lines, a list of 40
with 3 hours gives 1 line, a list of 2 with 24 hours gives 2 lines. -/
theorem fetchForecast_entry_count_witness :
    (∃ lines : List String,
      (fetchForecast (demoWorld 200 (demoForecast 40)) demoEnv "Austin" 24).result
          = .ok (forecastText (headerLine "Austin" 24) lines)
        ∧ lines.length = 8)
    ∧ (∃ lines : List String,
      (fetchForecast (demoWorld 200 (demoForecast 40)) demoEnv "Austin" 3).result
          = .ok (forecastText (headerLine "Austin" 3) lines)
        ∧ lines.length = 1)
    ∧ (∃ lines : List String,
      (fetchForecast (demoWorld 200 (demoForecast 2)) demoEnv "Austin" 24).result
          = .ok (forecastText (headerLine "Austin" 24) lines)
        ∧ lines.length = 2) := by
  have h40 : (demoForecast 40).List.length = 40 := by decide
  have h2 : (demoForecast 2).List.length = 2 := by decide
  refine ⟨?_, ?_, ?_⟩
  · obtain ⟨lines, h, hl, _⟩ := fetchForecast_entry_count (demoWorld 200 (demoForecast 40))
      demoEnv "Austin" "city not found" 24 (demoForecast 40) (by decide) rfl rfl
      (by decide) (by decide) (by decide)
    rw [h40] at hl
    exact ⟨lines, h, by omega⟩
  · obtain ⟨lines, h, hl, _⟩ := fetchForecast_entry_count (demoWorld 200 (demoForecast 40))
      demoEnv "Austin" "city not found" 3 (demoForecast 40) (by decide) rfl rfl
      (by decide) (by decide) (by decide)
    rw [h40] at hl
    exact ⟨lines, h, by omega⟩
  · obtain ⟨lines, h, hl, _⟩ := fetchForecast_entry_count (demoWorld 200 (demoForecast 2))
      demoEnv "Austin" "city not found" 24 (demoForecast 2) (by decide) rfl rfl
      (by decide) (by decide) (by decide)
    rw [h2] at hl
    exact ⟨lines, h, by omega⟩

/-- C8: for a decoded forecast with a non-empty list, the text is the header line
followed by as many entry lines as the entry count, and line `i` is the rendering of
element `i` of the list. -/
theorem fetchForecast_lines_in_order (w : World) (env : Env) (city body : String)
    (hours : Int) (data : ForecastData) (hk : getAPIKey env ≠ "")
    (hnet : w.net (forecastURL city (getAPIKey env)) = .response 200 body)
    (hdec : w.decodeForecast body = .ok data) (hn : 1 ≤ data.List.length) :
    ∃ lines : List String,
      (fetchForecast w env city hours).result
          = .ok (forecastText (headerLine data.CityName hours) lines)
        ∧ (lines.length : Int) = entryCount hours data.List.length
        ∧ lines.length ≤ data.List.length
        ∧ ∀ i : Nat, i < lines.length →
            lines.get? i = (data.List.get? i).map (entryLine w.ops) := by
  have hp := entryCount_pos hours data.List.length
  have hl := entryCount_le hours data.List.length hn
  have hlen : ((data.List.take (entryCount hours data.List.length).toNat).map
      (entryLine w.ops)).length = (entryCount hours data.List.length).toNat := by
    rw [List.length_map, List.length_take]; omega
  refine ⟨(data.List.take (entryCount hours data.List.length).toNat).map (entryLine w.ops),
    ?_, ?_, ?_, ?_⟩
  · rw [fetchForecast_decoded w env city body hours data hk hnet hdec]
    exact forecastReport_ok w.ops data hours hn
  · rw [hlen]; omega
  · rw [hlen]; omega
  · intro i hi
    rw [hlen] at hi
    simp [List.getElem?_take, hi]

/-- An instance of C8: two entries requested out of three. -/
theorem fetchForecast_lines_in_order_witness :
    ∃ lines : List String,
      (fetchForecast (demoWorld 200 (demoForecast 3)) demoEnv "Austin" 6).result
          = .ok (forecastText (headerLine "Austin" 6) lines)
        ∧ lines = [entryLine demoOps demoEntry, entryLine demoOps demoEntry] := by
  obtain ⟨lines, h, hl, _, hi⟩ := fetchForecast_lines_in_order
    (demoWorld 200 (demoForecast 3)) demoEnv "Austin" "city not found" 6 (demoForecast 3)
    (by decide) rfl rfl (by decide)
  refine ⟨lines, h, ?_⟩
  have hc : entryCount 6 (demoForecast 3).List.length = 2 := by decide
  rw [hc] at hl
  have hl2 : lines.length = 2 := by omega
  have h0 := hi 0 (by omega)
  have h1 := hi 1 (by omega)
  match lines, hl2, h0, h1 with
  | [a, b], _, h0, h1 =>
    simp [demoForecast, List.replicate] at h0 h1
    simp [demoWorld, h0, h1]

/-! ## Claims about validation, configuration and upstream errors -/

theorem Sprintf_failedWeather (ops : FloatOps) (err : String) :
    Sprintf ops "Failed to get weather: %v" [.str err] = "Failed to get weather: " ++ err := by
  have hd : directives "Failed to get weather: %v".data
      = [.lit "Failed to get weather: ", .text] := by
    decide
  unfold Sprintf
  rw [hd]
  simp only [render, String.append_empty]

theorem Sprintf_failedForecast (ops : FloatOps) (err : String) :
    Sprintf ops "Failed to get forecast: %v" [.str err]
      = "Failed to get forecast: " ++ err := by
  have hd : directives "Failed to get forecast: %v".data
      = [.lit "Failed to get forecast: ", .text] := by
    decide
  unfold Sprintf
  rw [hd]
  simp only [render, String.append_empty]

theorem Sprintf_parseWeather (ops : FloatOps) (err : String) :
    Sprintf ops "failed to parse weather: %w" [.str err]
      = "failed to parse weather: " ++ err := by
  have hd : directives "failed to parse weather: %w".data
      = [.lit "failed to parse weather: ", .text] := by
    decide
  unfold Sprintf
  rw [hd]
  simp only [render, String.append_empty]

theorem Sprintf_parseForecast (ops : FloatOps) (err : String) :
    Sprintf ops "failed to parse forecast: %w" [.str err]
      = "failed to parse forecast: " ++ err := by
  have hd : directives "failed to parse forecast: %w".data
      = [.lit "failed to parse forecast: ", .text] := by
    decide
  unfold Sprintf
  rw [hd]
  simp only [render, String.append_empty]

theorem cityArg_invalid (args : Arguments)
    (hc : ∀ s : String, args.lookup "city" = some (.str s) → s = "") :
    cityArg args = none ∨ cityArg args = some "" := by
  unfold cityArg
  cases h : args.lookup "city" with
  | none => simp
  | some v =>
    cases v with
    | str s => simp [hc s h]
    | number x => simp
    | other => simp

theorem getAPIKey_unset (env : Env)
    (h : env "WEATHER_API_KEY" = none ∨ env "WEATHER_API_KEY" = some "") :
    getAPIKey env = "" := by
  rcases h with h | h <;> simp [getAPIKey, Getenv, h, defaultAPIKey]

theorem fetchWeather_noKey (w : World) (env : Env) (city : String)
    (h : getAPIKey env = "") :
    fetchWeather w env city = ⟨[], .error "WEATHER_API_KEY not set"⟩ := by
  simp [fetchWeather, h, Sprintf_noKey]

theorem fetchForecast_noKey (w : World) (env : Env) (city : String) (hours : Int)
    (h : getAPIKey env = "") :
    fetchForecast w env city hours = ⟨[], .error "WEATHER_API_KEY not set"⟩ := by
  simp [fetchForecast, h, Sprintf_noKey]

theorem handlers_invalid_city (w : World) (env : Env) (args : Arguments)
    (h : cityArg args = none ∨ cityArg args = some "") :
    getWeatherHandler w env args = ⟨[], .returned ⟨"city is required", true⟩ none⟩
      ∧ getForecastHandler w env args = ⟨[], .returned ⟨"city is required", true⟩ none⟩ := by
  rcases h with h | h <;>
    simp [getWeatherHandler, getForecastHandler, h, NewToolResultError]

/-- C4: when `city` is absent, is not a string or is the empty string, both handlers
return the error result `city is required` with a nil Go error, and request no URL:
neither fetch routine is called. -/
theorem handlers_city_required (w : World) (env : Env) (args : Arguments)
    (hc : ∀ s : String, args.lookup "city" = some (.str s) → s = "") :
    getWeatherHandler w env args = ⟨[], .returned ⟨"city is required", true⟩ none⟩
      ∧ getForecastHandler w env args = ⟨[], .returned ⟨"city is required", true⟩ none⟩ :=
  handlers_invalid_city w env args (cityArg_invalid args hc)

/-- Instances of C4: `city` absent, not a string, and empty. -/
theorem handlers_city_required_witness :
    (getWeatherHandler (demoWorld 200 (demoForecast 3)) demoEnv []
        = ⟨[], .returned ⟨"city is required", true⟩ none⟩
      ∧ getForecastHandler (demoWorld 200 (demoForecast 3)) demoEnv []
        = ⟨[], .returned ⟨"city is required", true⟩ none⟩)
    ∧ (getWeatherHandler (demoWorld 200 (demoForecast 3)) demoEnv [("city", .other)]
        = ⟨[], .returned ⟨"city is required", true⟩ none⟩
      ∧ getForecastHandler (demoWorld 200 (demoForecast 3)) demoEnv [("city", .other)]
        = ⟨[], .returned ⟨"city is required", true⟩ none⟩)
    ∧ (getWeatherHandler (demoWorld 200 (demoForecast 3)) demoEnv [("city", .str "")]
        = ⟨[], .returned ⟨"city is required", true⟩ none⟩
      ∧ getForecastHandler (demoWorld 200 (demoForecast 3)) demoEnv [("city", .str "")]
        = ⟨[], .returned ⟨"city is required", true⟩ none⟩) :=
  ⟨handlers_city_required _ _ [] (by
     intro s h
     simp [List.lookup] at h),
   handlers_city_required _ _ [("city", .other)] (by
     intro s h
     simp [List.lookup] at h),
   handlers_city_required _ _ [("city", .str "")] (by
     intro s h
     simp [List.lookup] at h
     exact h.symm)⟩

/-- C5 as stated fails: without a credential and without a city, the result of
`get_weather` is `city is required`, which does not carry the configuration error. -/
theorem noKey_noCity_counterexample :
    getWeatherHandler (demoWorld 200 (demoForecast 3)) emptyEnv []
        = ⟨[], .returned ⟨"city is required", true⟩ none⟩
      ∧ ¬ ("WEATHER_API_KEY not set".data <:+: "city is required".data) := by
  constructor
  · decide
  · decide

/-- C5, amended: without a credential every call of either handler requests no URL and
returns an error result with a nil Go error; when the city is valid, the message is the
configuration error behind the prefix of the tool. -/
theorem handlers_noKey (w : World) (env : Env) (args : Arguments)
    (hk : env "WEATHER_API_KEY" = none ∨ env "WEATHER_API_KEY" = some "") :
    (∃ msg : String, getWeatherHandler w env args = ⟨[], .returned ⟨msg, true⟩ none⟩
        ∧ ((∃ city : String, args.lookup "city" = some (.str city) ∧ city ≠ "") →
            msg = "Failed to get weather: WEATHER_API_KEY not set"))
      ∧ (∃ msg : String, getForecastHandler w env args = ⟨[], .returned ⟨msg, true⟩ none⟩
        ∧ ((∃ city : String, args.lookup "city" = some (.str city) ∧ city ≠ "") →
            msg = "Failed to get forecast: WEATHER_API_KEY not set")) := by
  have hkey := getAPIKey_unset env hk
  by_cases hv : ∃ city : String, args.lookup "city" = some (.str city) ∧ city ≠ ""
  · obtain ⟨city, hl, hne⟩ := hv
    have hca : cityArg args = some city := by simp [cityArg, hl]
    constructor
    · refine ⟨"Failed to get weather: WEATHER_API_KEY not set", ?_, fun _ => rfl⟩
      simp [getWeatherHandler, hca, hne, fetchWeather_noKey w env city hkey, toolReply,
        Sprintf_failedWeather, NewToolResultError]
    · refine ⟨"Failed to get forecast: WEATHER_API_KEY not set", ?_, fun _ => rfl⟩
      simp [getForecastHandler, hca, hne, fetchForecast_noKey w env city _ hkey, toolReply,
        Sprintf_failedForecast, NewToolResultError]
  · have hc : ∀ s : String, args.lookup "city" = some (.str s) → s = "" := by
      intro s hs
      by_contra hne
      exact hv ⟨s, hs, hne⟩
    obtain ⟨h1, h2⟩ := handlers_invalid_city w env args (cityArg_invalid args hc)
    exact ⟨⟨"city is required", h1, fun h => absurd h hv⟩,
      ⟨"city is required", h2, fun h => absurd h hv⟩⟩

/-- An instance of amended C5: no credential, a valid city. -/
theorem handlers_noKey_witness :
    (∃ msg : String,
      getWeatherHandler (demoWorld 200 (demoForecast 3)) emptyEnv [("city", .str "Austin")]
          = ⟨[], .returned ⟨msg, true⟩ none⟩
        ∧ msg = "Failed to get weather: WEATHER_API_KEY not set")
      ∧ (∃ msg : String,
      getForecastHandler (demoWorld 200 (demoForecast 3)) emptyEnv [("city", .str "Austin")]
          = ⟨[], .returned ⟨msg, true⟩ none⟩
        ∧ msg = "Failed to get forecast: WEATHER_API_KEY not set") := by
  obtain ⟨⟨m1, h1, k1⟩, ⟨m2, h2, k2⟩⟩ := handlers_noKey (demoWorld 200 (demoForecast 3))
    emptyEnv [("city", .str "Austin")] (Or.inl rfl)
  have hv : ∃ city : String,
      List.lookup "city" [("city", Value.str "Austin")] = some (.str city) ∧ city ≠ "" :=
    ⟨"Austin", by decide, by decide⟩
  exact ⟨⟨m1, h1, k1 hv⟩, ⟨m2, h2, k2 hv⟩⟩

/-- C6 as stated fails: 204 is a success status, and both fetch routines fail with the
upstream error on it instead of decoding the body. -/
theorem status_204_counterexample :
    (200 : Int) ≤ 204 ∧ (204 : Int) < 300
      ∧ (fetchWeather (demoWorld 204 (demoForecast 3)) demoEnv "Austin").result
          = .error "API error (204): city not found"
      ∧ (fetchForecast (demoWorld 204 (demoForecast 3)) demoEnv "Austin" 24).result
          = .error "API error (204): city not found" := by
  refine ⟨by decide, by decide, ?_, ?_⟩
  · decide
  · decide

/-- C6, amended: with a credential and a completed exchange, both fetch routines fail
with `API error (<status>): <body>` exactly when the status is not 200, and decode the
body when it is 200. -/
theorem fetch_status_check (w : World) (env : Env) (city : String) (hours : Int)
    (status : Int) (body : String) (hk : getAPIKey env ≠ "") :
    (w.net (weatherURL city (getAPIKey env)) = .response status body →
      (fetchWeather w env city).result =
        if status = 200 then
          match w.decodeWeather body with
          | .error e => .error ("failed to parse weather: " ++ e)
          | .ok data => .ok (weatherReport w.ops data)
        else .error ("API error (" ++ toString status ++ "): " ++ body))
    ∧ (w.net (forecastURL city (getAPIKey env)) = .response status body →
      (fetchForecast w env city hours).result =
        if status = 200 then
          match w.decodeForecast body with
          | .error e => .error ("failed to parse forecast: " ++ e)
          | .ok data => forecastReport w.ops data hours
        else .error ("API error (" ++ toString status ++ "): " ++ body)) := by
  constructor
  · intro hnet
    by_cases hs : status = 200
    · cases hd : w.decodeWeather body <;>
        simp [fetchWeather, hk, Sprintf_weatherURL, hnet, hs, hd, Sprintf_parseWeather]
    · simp [fetchWeather, hk, Sprintf_weatherURL, hnet, hs, Sprintf_apiError]
  · intro hnet
    by_cases hs : status = 200
    · cases hd : w.decodeForecast body <;>
        simp [fetchForecast, hk, Sprintf_forecastURL, hnet, hs, hd, Sprintf_parseForecast]
    · simp [fetchForecast, hk, Sprintf_forecastURL, hnet, hs, Sprintf_apiError]

/-- The example of C6: status 404 with body `city not found`. -/
theorem fetch_status_check_witness :
    (fetchWeather (demoWorld 404 (demoForecast 3)) demoEnv "Austin").result
        = .error ("API error (" ++ toString (404 : Int) ++ "): " ++ "city not found")
      ∧ (fetchForecast (demoWorld 404 (demoForecast 3)) demoEnv "Austin" 24).result
        = .error ("API error (" ++ toString (404 : Int) ++ "): " ++ "city not found") := by
  obtain ⟨h1, h2⟩ := fetch_status_check (demoWorld 404 (demoForecast 3)) demoEnv "Austin" 24
    404 "city not found" (by decide)
  exact ⟨by simpa using h1 rfl, by simpa using h2 rfl⟩

/-! ## Claims about the current conditions report -/

theorem Sprintf_weather (ops : FloatOps) (name c d : String) (t fl hi lo ws g : Float64)
    (hum cl : Int) :
    Sprintf ops
        "Weather for %s:\n  Condition: %s (%s)\n  Temperature: %.0f°F (feels like %.0f°F)\n  High: %.0f°F / Low: %.0f°F\n  Humidity: %d%%\n  Wind: %.1f mph (gusts: %.1f mph)\n  Cloud cover: %d%%"
        [.str name, .str c, .str d, .float t, .float fl, .float hi, .float lo, .int hum,
         .float ws, .float g, .int cl]
      = "Weather for " ++ (name ++ (":" ++ ("\n" ++ ("  Condition: " ++ (c ++ (" (" ++ (d
          ++ (")" ++ ("\n" ++ ("  Temperature: " ++ (ops.f0 t ++ ("°F (feels like "
          ++ (ops.f0 fl ++ ("°F)" ++ ("\n" ++ ("  High: " ++ (ops.f0 hi ++ ("°F / Low: "
          ++ (ops.f0 lo ++ ("°F" ++ ("\n" ++ ("  Humidity: " ++ (toString hum ++ ("%"
          ++ ("\n" ++ ("  Wind: " ++ (ops.f1 ws ++ (" mph (gusts: " ++ (ops.f1 g
          ++ (" mph)" ++ ("\n" ++ ("  Cloud cover: " ++ (toString cl ++ "%")))))))))))))))))))))))))))))))))
      := by
  have hd : directives
      "Weather for %s:\n  Condition: %s (%s)\n  Temperature: %.0f°F (feels like %.0f°F)\n  High: %.0f°F / Low: %.0f°F\n  Humidity: %d%%\n  Wind: %.1f mph (gusts: %.1f mph)\n  Cloud cover: %d%%".data
      = [.lit "Weather for ", .text, .lit ":\n  Condition: ", .text, .lit " (", .text,
         .lit ")\n  Temperature: ", .fixed0, .lit "°F (feels like ", .fixed0,
         .lit "°F)\n  High: ", .fixed0, .lit "°F / Low: ", .fixed0,
         .lit "°F\n  Humidity: ", .decimal, .lit "%\n  Wind: ", .fixed1,
         .lit " mph (gusts: ", .fixed1, .lit " mph)\n  Cloud cover: ", .decimal, .lit "%"] := by
    decide
  unfold Sprintf
  rw [hd]
  simp only [render, String.append_empty]
  rfl

theorem weatherReport_eq (ops : FloatOps) (data : WeatherData) :
    weatherReport ops data = String.intercalate "\n" (weatherLines ops data) := by
  unfold weatherReport weatherLines weatherCondition weatherDescription
  simp only []
  rw [Sprintf_weather]
  cases data.Weather <;>
    simp only [String.intercalate, String.intercalate.go, String.append_assoc, List.head?,
      Option.map, Option.getD]

/-- C9: for a decoded current conditions response, `fetchWeather` returns the seven
lines of `weatherLines` joined by line breaks, a text fixed by the decoded fields; the
condition and description are those of the first weather item, `Clear` and `clear sky`
when the list is empty. -/
theorem fetchWeather_report (w : World) (env : Env) (city body : String)
    (data : WeatherData) (hk : getAPIKey env ≠ "")
    (hnet : w.net (weatherURL city (getAPIKey env)) = .response 200 body)
    (hdec : w.decodeWeather body = .ok data) :
    (fetchWeather w env city).result = .ok (String.intercalate "\n" (weatherLines w.ops data))
      ∧ (weatherLines w.ops data).length = 7
      ∧ (data.Weather = [] →
          weatherCondition data = "Clear" ∧ weatherDescription data = "clear sky")
      ∧ (∀ c rest, data.Weather = c :: rest →
          weatherCondition data = c.Main ∧ weatherDescription data = c.Description) := by
  refine ⟨?_, rfl, ?_, ?_⟩
  · simp [fetchWeather, hk, Sprintf_weatherURL, hnet, hdec, weatherReport_eq]
  · intro h
    simp [weatherCondition, weatherDescription, h]
  · intro c rest h
    simp [weatherCondition, weatherDescription, h]

/-- An instance of C9: the report of the demo response, whose weather list is empty. -/
theorem fetchWeather_report_witness :
    (fetchWeather (demoWorld 200 (demoForecast 3)) demoEnv "Austin").result
      = .ok "Weather for Austin:\n  Condition: Clear (clear sky)\n  Temperature: 70°F (feels like 68°F)\n  High: 75°F / Low: 60°F\n  Humidity: 40%\n  Wind: 5.0 mph (gusts: 9.0 mph)\n  Cloud cover: 20%" := by
  have h := (fetchWeather_report (demoWorld 200 (demoForecast 3)) demoEnv "Austin"
    "city not found" demoWeather (by decide) rfl rfl).1
  rw [h]
  decide

/-! ## Claims about the hour count -/

theorem trunc_nonneg (x : Float64) (hp : x.isPos = true) : 0 ≤ x.trunc := by
  have hm : 0 < x.mant := by simpa [Float64.isPos] using hp
  unfold Float64.trunc
  split_ifs
  · positivity
  · exact Int.tdiv_nonneg (le_of_lt hm) (by positivity)

theorem forecastHours_default (indef : Int) (args : Arguments)
    (h : ∀ x : Float64, args.lookup "hours" = some (.number x) → x.isPos = false) :
    forecastHours indef args = 24 := by
  unfold forecastHours
  cases hl : args.lookup "hours" with
  | none => rfl
  | some v =>
    cases v with
    | str s => rfl
    | number x => simp [h x hl]
    | other => rfl

theorem forecastHours_clamped (indef : Int) (args : Arguments) (x : Float64)
    (hl : args.lookup "hours" = some (.number x)) (hp : x.isPos = true)
    (hr : x.trunc ≤ maxInt) :
    forecastHours indef args = clampedHours x := by
  have h0 := trunc_nonneg x hp
  have hmin : minInt ≤ x.trunc := by
    have : minInt ≤ 0 := by decide
    omega
  unfold forecastHours clampedHours
  simp only [hl, hp, floatToInt, hmin, hr, and_self, if_true]
  split_ifs <;> omega

theorem getForecastHandler_valid (w : World) (env : Env) (args : Arguments) (city : String)
    (hc : args.lookup "city" = some (.str city)) (hne : city ≠ "") :
    getForecastHandler w env args
      = toolReply w.ops "Failed to get forecast: %v"
          (fetchForecast w env city (forecastHours w.indef args)) := by
  simp [getForecastHandler, cityArg, hc, hne]

/-- C3, evaluated on the code: for the positive request 2 ^ 64, which does not fit a 64
bit integer, the conversion comes before the clamp; with the amd64 conversion result
the hour count passed on is the least integer, not the request clamped to 120, and the
header of the reply prints it. -/
theorem forecastHours_overflow_amd64 :
    Float64.isPos ⟨1, 64⟩ = true
      ∧ Float64.trunc ⟨1, 64⟩ = 18446744073709551616
      ∧ clampedHours ⟨1, 64⟩ = 120
      ∧ forecastHours (demoWorld 200 (demoForecast 1)).indef
          [("city", .str "Austin"), ("hours", .number ⟨1, 64⟩)] = -9223372036854775808
      ∧ (getForecastHandler (demoWorld 200 (demoForecast 1)) demoEnv
          [("city", .str "Austin"), ("hours", .number ⟨1, 64⟩)]).reply
        = .returned ⟨"Forecast for Austin (next -9223372036854775808 hours):\n  2024-01-01 12:00:00: 70°F, few clouds, wind 5.0 mph, rain chance 50%\n", false⟩ none := by
  refine ⟨by decide, by decide, by decide, by decide, by decide⟩

/-- The hour count in range: with a valid city, the handler passes 24 to `fetchForecast`
when `hours` is absent, is not a number or is not positive, and the request truncated
to an integer and clamped to 120 when it is positive and its truncation fits a 64 bit
integer. -/
theorem getForecastHandler_hours (w : World) (env : Env) (args : Arguments) (city : String)
    (hc : args.lookup "city" = some (.str city)) (hne : city ≠ "") :
    ((∀ x : Float64, args.lookup "hours" = some (.number x) → x.isPos = false) →
        forecastHours w.indef args = 24
          ∧ getForecastHandler w env args
              = toolReply w.ops "Failed to get forecast: %v" (fetchForecast w env city 24))
      ∧ (∀ x : Float64, args.lookup "hours" = some (.number x) → x.isPos = true →
          x.trunc ≤ maxInt →
        forecastHours w.indef args = min x.trunc 120
          ∧ getForecastHandler w env args
              = toolReply w.ops "Failed to get forecast: %v"
                  (fetchForecast w env city (min x.trunc 120))) := by
  have hv := getForecastHandler_valid w env args city hc hne
  constructor
  · intro h
    have h24 := forecastHours_default w.indef args h
    rw [h24] at hv
    exact ⟨h24, hv⟩
  · intro x hl hp hr
    have hcl := forecastHours_clamped w.indef args x hl hp hr
    rw [hcl] at hv
    exact ⟨hcl, hv⟩

/-- The examples of the specification: `hours` omitted gives 24, 500 gives 120, -5 gives
24. -/
theorem forecastHours_examples :
    forecastHours (demoWorld 200 (demoForecast 3)).indef [("city", .str "Austin")] = 24
      ∧ forecastHours (demoWorld 200 (demoForecast 3)).indef
          [("city", .str "Austin"), ("hours", .number ⟨500, 0⟩)] = 120
      ∧ forecastHours (demoWorld 200 (demoForecast 3)).indef
          [("city", .str "Austin"), ("hours", .number ⟨-5, 0⟩)] = 24 := by
  refine ⟨by decide, by decide, by decide⟩

/-! ## Claims about the forecast header -/

theorem forecastLoop_start (ops : FloatOps) (list : List ForecastEntry) :
    ∀ (n i : Nat) (result text : String),
      forecastLoop ops list n i result = .ok text → ∃ rest : String, text = result ++ rest := by
  intro n
  induction n with
  | zero =>
      intro i result text h
      simp only [forecastLoop, FetchResult.ok.injEq] at h
      exact ⟨"", by simp [h]⟩
  | succ n ih =>
      intro i result text h
      rw [forecastLoop] at h
      split at h
      · cases h
      · obtain ⟨rest, hr⟩ := ih _ _ _ h
        exact ⟨_, hr.trans (String.append_assoc _ _ _)⟩

theorem forecastReport_start (ops : FloatOps) (data : ForecastData) (hours : Int)
    (text : String) (h : forecastReport ops data hours = .ok text) :
    ∃ rest : String, text = headerLine data.CityName hours ++ "\n" ++ rest := by
  unfold forecastReport at h
  simp only [Sprintf_header] at h
  exact forecastLoop_start ops data.List _ _ _ _ h

theorem fetchForecast_ok_inv (w : World) (env : Env) (city : String) (hours : Int)
    (text : String) (h : (fetchForecast w env city hours).result = .ok text) :
    ∃ (body : String) (data : ForecastData),
      w.net (forecastURL city (getAPIKey env)) = .response 200 body
        ∧ w.decodeForecast body = .ok data
        ∧ forecastReport w.ops data hours = .ok text := by
  unfold fetchForecast at h
  simp only [Sprintf_forecastURL] at h
  by_cases hk : getAPIKey env = ""
  · simp [hk] at h
  · simp only [hk, if_false] at h
    cases hn : w.net (forecastURL city (getAPIKey env)) with
    | transportError e => simp [hn] at h
    | readError st e => simp [hn] at h
    | response status body =>
      simp only [hn] at h
      by_cases hs : status = 200
      · subst hs
        cases hd : w.decodeForecast body with
        | error e => simp [hd] at h
        | ok data =>
          simp [hd] at h
          exact ⟨body, data, rfl, hd, h⟩
      · simp [hs] at h

/-- C7 as stated fails: a request for 500 hours is answered with a header that says 120
hours, the clamped value, and nowhere 500. -/
theorem header_clamped_counterexample :
    Float64.trunc ⟨500, 0⟩ = 500
      ∧ (getForecastHandler (demoWorld 200 (demoForecast 1)) demoEnv
          [("city", .str "Austin"), ("hours", .number ⟨500, 0⟩)]).reply
        = .returned ⟨"Forecast for Austin (next 120 hours):\n  2024-01-01 12:00:00: 70°F, few clouds, wind 5.0 mph, rain chance 50%\n", false⟩ none := by
  refine ⟨by decide, by decide⟩

theorem getForecastHandler_ok_inv (w : World) (env : Env) (args : Arguments)
    (text : String)
    (h : (getForecastHandler w env args).reply = .returned ⟨text, false⟩ none) :
    ∃ (city body : String) (data : ForecastData) (rest : String),
      args.lookup "city" = some (.str city)
        ∧ w.net (forecastURL city (getAPIKey env)) = .response 200 body
        ∧ w.decodeForecast body = .ok data
        ∧ text = headerLine data.CityName (forecastHours w.indef args) ++ "\n" ++ rest := by
  unfold getForecastHandler at h
  cases hc : cityArg args with
  | none => simp [hc, NewToolResultError] at h
  | some city =>
    have hl : args.lookup "city" = some (.str city) := by
      unfold cityArg at hc
      cases hv : args.lookup "city" with
      | none => simp [hv] at hc
      | some v =>
        cases v with
        | str s =>
          simp [hv] at hc
          rw [hc]
        | number x => simp [hv] at hc
        | other => simp [hv] at hc
    simp only [hc] at h
    by_cases hne : city = ""
    · simp [hne, NewToolResultError] at h
    · simp only [hne, if_false, toolReply] at h
      cases hr : (fetchForecast w env city (forecastHours w.indef args)).result with
      | runtimePanic => simp [hr] at h
      | error e => simp [hr, NewToolResultError] at h
      | ok t =>
        simp [hr, NewToolResultText] at h
        obtain ⟨body, data, hn, hd, hrep⟩ := fetchForecast_ok_inv w env city _ t hr
        obtain ⟨rest, hrest⟩ := forecastReport_start w.ops data _ t hrep
        exact ⟨city, body, data, rest, hl, hn, hd, by rw [← h, hrest]⟩

/-- C7, amended: whenever `get_forecast` returns a text result, the response had status
200 and decoded, and the text starts with the header line built from the city name of
the response and the hour count H, where H is 24 when `hours` is absent, is not a
number or is not positive, and is the request truncated to an integer and clamped to
120 when it is positive and its truncation fits a 64 bit integer. -/
theorem getForecastHandler_header (w : World) (env : Env) (args : Arguments)
    (text : String)
    (h : (getForecastHandler w env args).reply = .returned ⟨text, false⟩ none) :
    ∃ (city body : String) (data : ForecastData) (rest : String),
      args.lookup "city" = some (.str city)
        ∧ w.net (forecastURL city (getAPIKey env)) = .response 200 body
        ∧ w.decodeForecast body = .ok data
        ∧ ((∀ x : Float64, args.lookup "hours" = some (.number x) → x.isPos = false) →
            text = headerLine data.CityName 24 ++ "\n" ++ rest)
        ∧ (∀ x : Float64, args.lookup "hours" = some (.number x) → x.isPos = true →
            x.trunc ≤ maxInt →
            text = headerLine data.CityName (min x.trunc 120) ++ "\n" ++ rest) := by
  obtain ⟨city, body, data, rest, hl, hn, hd, ht⟩ := getForecastHandler_ok_inv w env args text h
  refine ⟨city, body, data, rest, hl, hn, hd, ?_, ?_⟩
  · intro hx
    rw [forecastHours_default w.indef args hx] at ht
    exact ht
  · intro x hx hp hr
    rw [forecastHours_clamped w.indef args x hx hp hr] at ht
    exact ht

/-- Instances of amended C7: the header of a request for 500 hours says 120, and the
header of a request without `hours` says 24. -/
theorem getForecastHandler_header_witness :
    (∃ rest : String,
      "Forecast for Austin (next 120 hours):\n  2024-01-01 12:00:00: 70°F, few clouds, wind 5.0 mph, rain chance 50%\n"
        = headerLine "Austin" 120 ++ "\n" ++ rest)
    ∧ (∃ rest : String,
      "Forecast for Austin (next 24 hours):\n  2024-01-01 12:00:00: 70°F, few clouds, wind 5.0 mph, rain chance 50%\n"
        = headerLine "Austin" 24 ++ "\n" ++ rest) := by
  constructor
  · obtain ⟨city, body, data, rest, _, _, h3, _, h5⟩ := getForecastHandler_header
      (demoWorld 200 (demoForecast 1)) demoEnv
      [("city", .str "Austin"), ("hours", .number ⟨500, 0⟩)]
      "Forecast for Austin (next 120 hours):\n  2024-01-01 12:00:00: 70°F, few clouds, wind 5.0 mph, rain chance 50%\n"
      (by decide)
    have hdata : data = demoForecast 1 := by
      simp only [demoWorld] at h3
      injection h3 with h3
      exact h3.symm
    have h := h5 ⟨500, 0⟩ (by decide) (by decide) (by decide)
    rw [hdata] at h
    exact ⟨rest, h⟩
  · obtain ⟨city, body, data, rest, _, _, h3, h4, _⟩ := getForecastHandler_header
      (demoWorld 200 (demoForecast 1)) demoEnv
      [("city", .str "Austin")]
      "Forecast for Austin (next 24 hours):\n  2024-01-01 12:00:00: 70°F, few clouds, wind 5.0 mph, rain chance 50%\n"
      (by decide)
    have hdata : data = demoForecast 1 := by
      simp only [demoWorld] at h3
      injection h3 with h3
      exact h3.symm
    have h := h4 (by intro x hx; simp [List.lookup] at hx)
    rw [hdata] at h
    exact ⟨rest, h⟩

/-! ## Claims about the request URL -/

theorem splitOnChar_of_not_mem (sep : Char) :
    ∀ a : List Char, sep ∉ a → splitOnChar sep a = [a] := by
  intro a
  induction a with
  | nil => intro _; rfl
  | cons c cs ih =>
    intro h
    have hc : c ≠ sep := fun e => h (by simp [e])
    have hcs : sep ∉ cs := fun e => h (by simp [e])
    unfold splitOnChar
    simp [hc, ih hcs]

theorem splitOnChar_append (sep : Char) (rest : List Char) :
    ∀ a : List Char, sep ∉ a →
      splitOnChar sep (a ++ sep :: rest) = a :: splitOnChar sep rest := by
  intro a
  induction a with
  | nil =>
    intro _
    simp [splitOnChar]
  | cons c cs ih =>
    intro h
    have hc : c ≠ sep := fun e => h (by simp [e])
    have hcs : sep ∉ cs := fun e => h (by simp [e])
    rw [List.cons_append, splitOnChar]
    simp [hc, ih hcs]

theorem dropFragment_of_not_mem :
    ∀ l : List Char, '#' ∉ l → dropFragment l = l := by
  intro l
  induction l with
  | nil => intro _; rfl
  | cons c cs ih =>
    intro h
    have hc : c ≠ '#' := fun e => h (by simp [e])
    have hcs : '#' ∉ cs := fun e => h (by simp [e])
    simp [dropFragment, hc, ih hcs]

theorem queryOf_weatherURL (city apiKey : String)
    (h5 : '#' ∉ city.data) (h6 : '#' ∉ apiKey.data) :
    queryOf (weatherURL city apiKey).data
      = ("q=".data ++ city.data) ++ '&' :: (("appid=".data ++ apiKey.data)
          ++ '&' :: "units=imperial".data) := by
  have hb : '#' ∉ (baseURL ++ "/weather?q=").data := by decide
  have ha : '#' ∉ "&appid=".data := by decide
  have hu : '#' ∉ "&units=imperial".data := by decide
  have hn : '#' ∉ (weatherURL city apiKey).data := by
    simp only [weatherURL, String.data_append, List.mem_append, not_or] at hb ⊢
    exact ⟨⟨⟨⟨hb, h5⟩, ha⟩, h6⟩, hu⟩
  unfold queryOf
  rw [dropFragment_of_not_mem _ hn]
  simp [weatherURL, baseURL, afterQuestion]

theorem queryOf_forecastURL (city apiKey : String)
    (h5 : '#' ∉ city.data) (h6 : '#' ∉ apiKey.data) :
    queryOf (forecastURL city apiKey).data
      = ("q=".data ++ city.data) ++ '&' :: (("appid=".data ++ apiKey.data)
          ++ '&' :: "units=imperial".data) := by
  have hb : '#' ∉ (baseURL ++ "/forecast?q=").data := by decide
  have ha : '#' ∉ "&appid=".data := by decide
  have hu : '#' ∉ "&units=imperial".data := by decide
  have hn : '#' ∉ (forecastURL city apiKey).data := by
    simp only [forecastURL, String.data_append, List.mem_append, not_or] at hb ⊢
    exact ⟨⟨⟨⟨hb, h5⟩, ha⟩, h6⟩, hu⟩
  unfold queryOf
  rw [dropFragment_of_not_mem _ hn]
  simp [forecastURL, baseURL, afterQuestion]

theorem queryParams_of (url city apiKey : String)
    (hq : queryOf url.data
      = ("q=".data ++ city.data) ++ '&' :: (("appid=".data ++ apiKey.data)
          ++ '&' :: "units=imperial".data))
    (h1 : '&' ∉ city.data) (h2 : '=' ∉ city.data)
    (h3 : '&' ∉ apiKey.data) (h4 : '=' ∉ apiKey.data) :
    queryParams url = expectedParams city apiKey := by
  have ha : '&' ∉ "q=".data ++ city.data := by simp [h1]
  have hb : '&' ∉ "appid=".data ++ apiKey.data := by simp [h3]
  have hc : '&' ∉ "units=imperial".data := by decide
  have e1 : splitOnChar '=' ("q=".data ++ city.data) = ["q".data, city.data] := by
    have := splitOnChar_append '=' city.data "q".data (by decide)
    rw [splitOnChar_of_not_mem '=' city.data h2] at this
    simpa using this
  have e2 : splitOnChar '=' ("appid=".data ++ apiKey.data) = ["appid".data, apiKey.data] := by
    have := splitOnChar_append '=' apiKey.data "appid".data (by decide)
    rw [splitOnChar_of_not_mem '=' apiKey.data h4] at this
    simpa using this
  have e3 : splitOnChar '=' "units=imperial".data = ["units".data, "imperial".data] := by
    decide
  unfold queryParams expectedParams
  rw [hq, splitOnChar_append '&' _ _ ha, splitOnChar_append '&' _ _ hb,
    splitOnChar_of_not_mem '&' _ hc]
  simp only [List.map_cons, List.map_nil, e1, e2, e3]

theorem fetchWeather_requests (w : World) (env : Env) (city : String)
    (hk : getAPIKey env ≠ "") :
    (fetchWeather w env city).requests = [weatherURL city (getAPIKey env)] := by
  unfold fetchWeather
  simp only [hk, if_false, Sprintf_weatherURL]
  cases w.net (weatherURL city (getAPIKey env)) with
  | transportError e => rfl
  | readError st e => rfl
  | response status body =>
    simp only []
    split_ifs
    · rfl
    · cases w.decodeWeather body <;> rfl

theorem fetchForecast_requests (w : World) (env : Env) (city : String) (hours : Int)
    (hk : getAPIKey env ≠ "") :
    (fetchForecast w env city hours).requests = [forecastURL city (getAPIKey env)] := by
  unfold fetchForecast
  simp only [hk, if_false, Sprintf_forecastURL]
  cases w.net (forecastURL city (getAPIKey env)) with
  | transportError e => rfl
  | readError st e => rfl
  | response status body =>
    simp only []
    split_ifs
    · rfl
    · cases w.decodeForecast body <;> rfl

/-- C10 as stated fails: the city is put into the URL as it is, so for the city `a&b=c`
splitting the query string gives four parameters and `q` is `a`, not the city. -/
theorem query_split_counterexample :
    (fetchWeather (demoWorld 200 (demoForecast 3)) demoEnv "a&b=c").requests
        = ["https://api.openweathermap.org/data/2.5/weather?q=a&b=c&appid=KEY&units=imperial"]
      ∧ queryParams
          "https://api.openweathermap.org/data/2.5/weather?q=a&b=c&appid=KEY&units=imperial"
        = [["q", "a"], ["b", "c"], ["appid", "KEY"], ["units", "imperial"]]
      ∧ queryParams
          "https://api.openweathermap.org/data/2.5/weather?q=a&b=c&appid=KEY&units=imperial"
        ≠ expectedParams "a&b=c" "KEY" := by
  refine ⟨by decide, by decide, by decide⟩

/-- C10, amended: with a credential, for every city, the one URL text `fetchWeather`
and `fetchForecast` hand to `http.Get` is the base endpoint followed by `/weather` or
`/forecast` and `?q=<city>&appid=<credential>&units=imperial`, with city and credential
inserted as they are; when neither contains `&`, `=` or `#`, splitting the query
component of that URL on `&` and `=` gives exactly the three parameters `q`, `appid`
and `units`. -/
theorem fetch_url_params (w : World) (env : Env) (city : String) (hours : Int)
    (hk : getAPIKey env ≠ "") :
    (fetchWeather w env city).requests
        = [baseURL ++ "/weather?q=" ++ city ++ "&appid=" ++ getAPIKey env ++ "&units=imperial"]
      ∧ (fetchForecast w env city hours).requests
        = [baseURL ++ "/forecast?q=" ++ city ++ "&appid=" ++ getAPIKey env
            ++ "&units=imperial"]
      ∧ ((∀ c : Char, c = '&' ∨ c = '=' ∨ c = '#' →
            c ∉ city.data ∧ c ∉ (getAPIKey env).data) →
          queryParams (weatherURL city (getAPIKey env))
              = expectedParams city (getAPIKey env)
            ∧ queryParams (forecastURL city (getAPIKey env))
              = expectedParams city (getAPIKey env)) := by
  refine ⟨fetchWeather_requests w env city hk, fetchForecast_requests w env city hours hk, ?_⟩
  intro h
  have ha := h '&' (Or.inl rfl)
  have he := h '=' (Or.inr (Or.inl rfl))
  have hf := h '#' (Or.inr (Or.inr rfl))
  exact ⟨queryParams_of _ city _ (queryOf_weatherURL city _ hf.1 hf.2) ha.1 he.1 ha.2 he.2,
    queryParams_of _ city _ (queryOf_forecastURL city _ hf.1 hf.2) ha.1 he.1 ha.2 he.2⟩

/-- Instances of amended C10: for the city `Austin` and the credential `KEY` the query
splits into the three parameters; for the city `a#b` the URL text is still the plain
concatenation, and its query component is only `q=a`. -/
theorem fetch_url_params_witness :
    (fetchWeather (demoWorld 200 (demoForecast 3)) demoEnv "Austin").requests
        = ["https://api.openweathermap.org/data/2.5/weather?q=Austin&appid=KEY&units=imperial"]
      ∧ queryParams (weatherURL "Austin" "KEY")
        = [["q", "Austin"], ["appid", "KEY"], ["units", "imperial"]]
      ∧ (fetchWeather (demoWorld 200 (demoForecast 3)) demoEnv "a#b").requests
        = ["https://api.openweathermap.org/data/2.5/weather?q=a#b&appid=KEY&units=imperial"]
      ∧ queryParams (weatherURL "a#b" "KEY") = [["q", "a"]] := by
  obtain ⟨h1, _, h3⟩ := fetch_url_params (demoWorld 200 (demoForecast 3)) demoEnv
    "Austin" 24 (by decide)
  obtain ⟨k1, _, _⟩ := fetch_url_params (demoWorld 200 (demoForecast 3)) demoEnv
    "a#b" 24 (by decide)
  have h4 := (h3 (by
    intro c hc
    rcases hc with hc | hc | hc <;> subst hc <;> decide)).1
  rw [demoEnv_key] at h1 h4 k1
  exact ⟨h1, h4, k1, by decide⟩

end WeatherMcp
